import Mathlib

/-!
Shallow embedding of the MuleCube watchdog
(`mulecube-controlpanel-user/watchdog/app/main.py`).

The watchdog is a single-threaded control loop over three pieces of
module-level state: `restart_attempts : Dict[str, int]`,
`last_restart : Dict[str, datetime]` and `shed_services : Set[str]`.
Each tick it (1) restarts unhealthy / stopped-critical containers subject
to a cooldown and a max-attempts budget, (2) sheds heavy services on high
CPU temperature, (3) sheds non-essential services on low battery, and
hourly resets the restart-attempt counters.

Python dicts are embedded as association lists, the Python set as a
duplicate-free list, `datetime` as a natural number of seconds, and the
docker daemon as a list of container records plus success oracles for the
restart/stop/start calls (an oracle returning `false` models the docker
call raising an exception, which the source catches and logs).
-/

namespace Mulecube

/-- Python `a in b` on lowered strings: true when `pat` occurs as a
leading block of `s`. -/
def leadsWith : List Char → List Char → Bool
  | [], _ => true
  | _ :: _, [] => false
  | a :: as, b :: bs => a == b && leadsWith as bs

/-- Substring occurrence test over character lists (Python `pat in s`). -/
def occursIn (pat : List Char) : List Char → Bool
  | [] => pat.isEmpty
  | c :: rest => leadsWith pat (c :: rest) || occursIn pat rest

/-- Embedding of `container_matches(container_name, patterns)`:
`any(p.lower() in container_name.lower() for p in patterns)`. -/
def container_matches (container_name : String) (patterns : List String) : Bool :=
  let name_lower := container_name.data.map Char.toLower
  patterns.any (fun p => occursIn (p.data.map Char.toLower) name_lower)

/-- Association-list update mirroring Python `d[k] = v`. -/
def aset (l : List (String × Nat)) (k : String) (v : Nat) : List (String × Nat) :=
  match l with
  | [] => [(k, v)]
  | p :: rest => if p.1 == k then (k, v) :: rest else p :: aset rest k v

/-- One docker container as seen through the docker SDK attributes the
watchdog reads: `name`, `status`, `State.Health.Status` (absent when no
health probe is configured) and `HostConfig.RestartPolicy.Name`. -/
structure ContainerInfo where
  name : String
  status : String
  health : Option String
  restartPolicy : Option String
deriving DecidableEq, Repr

/-- The docker daemon's container table. -/
abbrev DockerState := List ContainerInfo

/-- Lookup `client.containers.get(name)`: `none` models `docker.errors.NotFound`. -/
def dockerGet (docker : DockerState) (name : String) : Option ContainerInfo :=
  docker.find? (fun c => c.name == name)

/-- Effect of a successful `container.stop` / `start` / `restart` on the
daemon's table. -/
def dockerSetStatus (docker : DockerState) (name : String) (status : String) : DockerState :=
  docker.map (fun c => if c.name == name then { c with status := status } else c)

/-- Success oracles for the docker lifecycle calls: `false` models the
call raising, which the source catches (`except Exception`) and logs. -/
structure Ops where
  restartOk : String → Bool
  stopOk : String → Bool
  startOk : String → Bool

/-- Oracle under which every docker lifecycle call succeeds. -/
def opsAll : Ops := ⟨fun _ => true, fun _ => true, fun _ => true⟩

/-- Watchdog configuration (environment variables with their defaults). -/
structure Config where
  maxRestartAttempts : Nat
  restartCooldown : Nat
  criticalServices : List String
  thermalShedServices : List String
  thermalShedTemp : Int
  batteryShedServices : List String
  batteryShedPercent : Int

/-- The default configuration from the source. -/
def cfgDefault : Config :=
  { maxRestartAttempts := 3
  , restartCooldown := 300
  , criticalServices := ["kiwix", "tileserver", "nginx", "dnsmasq"]
  , thermalShedServices := ["ollama", "retroarch", "navidrome"]
  , thermalShedTemp := 80
  , batteryShedServices := ["ollama", "retroarch", "navidrome", "openwebui"]
  , batteryShedPercent := 15 }

/-- The governor's module-level state: `restart_attempts` and
`last_restart` (Python dicts, keyed by container name). -/
structure WState where
  restart_attempts : List (String × Nat)
  last_restart : List (String × Nat)
deriving DecidableEq, Repr

/-- Counter read `restart_attempts.get(name, 0)`. -/
def attemptsOf (st : WState) (name : String) : Nat :=
  (st.restart_attempts.lookup name).getD 0

/-- The `battery` JSON object of the hw-monitor response; fields are
optional because the source reads them with `dict.get`. -/
structure BatteryInfo where
  percent : Option Int
  charging : Option Bool
deriving DecidableEq, Repr

/-- The `temperature` JSON object of the hw-monitor response. -/
structure TempInfo where
  cpu_temp_c : Option Int
deriving DecidableEq, Repr

/-- The hw-monitor `/api/system` response as the watchdog reads it;
`⟨none, none⟩` models the empty dict `{}` that `get_hw_status` returns on
any fetch failure. -/
structure HwStatus where
  temperature : Option TempInfo
  battery : Option BatteryInfo
deriving DecidableEq, Repr

/-- Temperature read `hw_status.get("temperature", {}).get("cpu_temp_c", 0)`. -/
def cpuTempOf (hw : HwStatus) : Int :=
  match hw.temperature with
  | none => 0
  | some t => t.cpu_temp_c.getD 0

/-- Embedding of `should_restart(container_name)`: deny while within the cooldown
window of the last restart, deny when the attempt budget is exhausted,
otherwise allow. -/
def should_restart (cfg : Config) (st : WState) (now : Nat) (container_name : String) : Bool :=
  let inCooldown :=
    match st.last_restart.lookup container_name with
    | some t => decide (now < t + cfg.restartCooldown)
    | none => false
  if inCooldown then false
  else if attemptsOf st container_name ≥ cfg.maxRestartAttempts then false
  else true

/-- Result of `restart_container`: the returned bool plus the updated
governor state and docker table. -/
structure RestartResult where
  ok : Bool
  st : WState
  docker : DockerState
deriving Repr

/-- Embedding of `restart_container(client, container_name)`: gate on `should_restart`,
look the container up (a `NotFound` raise yields `False` with no state
change), issue the restart, and on success increment the attempt counter
and record the restart time. -/
def restart_container (cfg : Config) (ops : Ops) (docker : DockerState) (st : WState)
    (now : Nat) (container_name : String) : RestartResult :=
  if !should_restart cfg st now container_name then ⟨false, st, docker⟩
  else
    match dockerGet docker container_name with
    | none => ⟨false, st, docker⟩
    | some _ =>
      if ops.restartOk container_name then
        ⟨true,
         ⟨aset st.restart_attempts container_name (attemptsOf st container_name + 1),
          aset st.last_restart container_name now⟩,
         dockerSetStatus docker container_name "running"⟩
      else ⟨false, st, docker⟩

/-- Set-insert for `shed_services.add(name)`. -/
def shedAdd (shed : List String) (name : String) : List String :=
  if shed.contains name then shed else shed ++ [name]

/-- Set-removal for `shed_services.discard(name)`. -/
def shedDiscard (shed : List String) (name : String) : List String :=
  shed.filter (fun s => !(s == name))

/-- Result of `stop_container` / `start_container`: the returned bool
plus the updated shed set and docker table. -/
structure StopResult where
  ok : Bool
  shed : List String
  docker : DockerState
deriving Repr

/-- Embedding of `stop_container(client, container_name, reason)`: stop the container
when it exists and is running; only after a successful stop is the name
added to `shed_services`. -/
def stop_container (ops : Ops) (docker : DockerState) (shed : List String)
    (container_name : String) : StopResult :=
  match dockerGet docker container_name with
  | none => ⟨false, shed, docker⟩
  | some c =>
    if c.status == "running" then
      if ops.stopOk container_name then
        ⟨true, shedAdd shed container_name, dockerSetStatus docker container_name "exited"⟩
      else ⟨false, shed, docker⟩
    else ⟨false, shed, docker⟩

/-- Embedding of `start_container(client, container_name)`: start the container when
it exists and is not running; only after a successful start is the name
discarded from `shed_services`. -/
def start_container (ops : Ops) (docker : DockerState) (shed : List String)
    (container_name : String) : StopResult :=
  match dockerGet docker container_name with
  | none => ⟨false, shed, docker⟩
  | some c =>
    if !(c.status == "running") then
      if ops.startOk container_name then
        ⟨true, shedDiscard shed container_name, dockerSetStatus docker container_name "running"⟩
      else ⟨false, shed, docker⟩
    else ⟨false, shed, docker⟩

/-- A `restart_container(client, name)` call site inside the health
loop: thread the governor state and docker table and append the name to
the issued-restart list when the restart went through. -/
def healthRestartStep (cfg : Config) (ops : Ops) (now : Nat) (name : String)
    (acc : WState × DockerState × List String) : WState × DockerState × List String :=
  let r := restart_container cfg ops acc.2.1 acc.1 now name
  (r.st, r.docker, if r.ok then acc.2.2 ++ [name] else acc.2.2)

/-- One iteration of the `check_container_health` loop body, threading
the governor state, the docker table and the list of issued restarts;
`c` is the snapshot record from `client.containers.list(all=True)`. -/
def healthStep (cfg : Config) (ops : Ops) (shed : List String) (now : Nat)
    (acc : WState × DockerState × List String) (c : ContainerInfo) :
    WState × DockerState × List String :=
  if shed.contains c.name then acc
  else if c.restartPolicy == some "no" then acc
  else
    let acc1 :=
      if c.health == some "unhealthy" then healthRestartStep cfg ops now c.name acc
      else acc
    if !(c.status == "running") && container_matches c.name cfg.criticalServices then
      healthRestartStep cfg ops now c.name acc1
    else acc1

/-- Embedding of `check_container_health(client)`: iterate over the snapshot of all
containers, skipping shed members and `restart_policy == "no"` units,
restarting unhealthy containers and stopped critical services. The third
component lists the names for which a restart was issued. -/
def check_container_health (cfg : Config) (ops : Ops) (docker : DockerState) (st : WState)
    (shed : List String) (now : Nat) : WState × DockerState × List String :=
  docker.foldl (healthStep cfg ops shed now) (st, docker, [])

/-- Result of a shedding check: updated shed set and docker table plus
the names successfully stopped and started. -/
structure ShedCheckResult where
  shed : List String
  docker : DockerState
  stopped : List String
  started : List String
deriving DecidableEq, Repr

/-- Embedding of `check_thermal_shedding(client, hw_status)`: at or above the shed
temperature stop every running container matching the thermal list; below
threshold minus the 5 degree hysteresis start every shed service matching
the thermal list that does not also match the battery list. -/
def check_thermal_shedding (cfg : Config) (ops : Ops) (docker : DockerState)
    (shed : List String) (hw : HwStatus) : ShedCheckResult :=
  let cpu_temp := cpuTempOf hw
  if cpu_temp ≥ cfg.thermalShedTemp then
    let running := docker.filter (fun c => c.status == "running")
    let res := running.foldl
      (fun (acc : List String × DockerState × List String) c =>
        if container_matches c.name cfg.thermalShedServices then
          let r := stop_container ops acc.2.1 acc.1 c.name
          (r.shed, r.docker, if r.ok then acc.2.2 ++ [c.name] else acc.2.2)
        else acc)
      (shed, docker, [])
    ⟨res.1, res.2.1, res.2.2, []⟩
  else if cpu_temp < cfg.thermalShedTemp - 5 then
    let res := shed.foldl
      (fun (acc : List String × DockerState × List String) service_name =>
        if container_matches service_name cfg.thermalShedServices then
          if !container_matches service_name cfg.batteryShedServices then
            let r := start_container ops acc.2.1 acc.1 service_name
            (r.shed, r.docker, if r.ok then acc.2.2 ++ [service_name] else acc.2.2)
          else acc
        else acc)
      (shed, docker, [])
    ⟨res.1, res.2.1, [], res.2.2⟩
  else ⟨shed, docker, [], []⟩

/-- Embedding of `check_battery_shedding(client, hw_status)`: return early when the
`battery` object is absent or `battery.get("percent")` is falsy (missing
or zero); at or below the shed percent while not charging stop every
running container matching the battery list; above threshold plus the 5
point hysteresis, or when charging, start every shed service matching the
battery list. -/
def check_battery_shedding (cfg : Config) (ops : Ops) (docker : DockerState)
    (shed : List String) (hw : HwStatus) : ShedCheckResult :=
  match hw.battery with
  | none => ⟨shed, docker, [], []⟩
  | some b =>
    match b.percent with
    | none => ⟨shed, docker, [], []⟩
    | some percent =>
      if percent == 0 then ⟨shed, docker, [], []⟩
      else
        let charging := b.charging.getD false
        if percent ≤ cfg.batteryShedPercent && !charging then
          let running := docker.filter (fun c => c.status == "running")
          let res := running.foldl
            (fun (acc : List String × DockerState × List String) c =>
              if container_matches c.name cfg.batteryShedServices then
                let r := stop_container ops acc.2.1 acc.1 c.name
                (r.shed, r.docker, if r.ok then acc.2.2 ++ [c.name] else acc.2.2)
              else acc)
            (shed, docker, [])
          ⟨res.1, res.2.1, res.2.2, []⟩
        else if percent > cfg.batteryShedPercent + 5 || charging then
          let res := shed.foldl
            (fun (acc : List String × DockerState × List String) service_name =>
              if container_matches service_name cfg.batteryShedServices then
                let r := start_container ops acc.2.1 acc.1 service_name
                (r.shed, r.docker, if r.ok then acc.2.2 ++ [service_name] else acc.2.2)
              else acc)
            (shed, docker, [])
          ⟨res.1, res.2.1, [], res.2.2⟩
        else ⟨shed, docker, [], []⟩

/-- Embedding of `reset_restart_counts()`: `restart_attempts = {}`; `last_restart` is
not touched. -/
def reset_restart_counts (st : WState) : WState :=
  ⟨[], st.last_restart⟩

/-- Result of one tick body. -/
structure TickResult where
  st : WState
  docker : DockerState
  shed : List String
  restarted : List String
  stopped : List String
  started : List String
deriving Repr

/-- The action-issuing body of one iteration of `main`'s loop:
`check_container_health`, then `check_thermal_shedding`, then
`check_battery_shedding`, all against the same `hw_status` reading (the
hourly counter reset is modelled separately by `reset_restart_counts`). -/
def tick (cfg : Config) (ops : Ops) (docker : DockerState) (st : WState)
    (shed : List String) (now : Nat) (hw : HwStatus) : TickResult :=
  let h := check_container_health cfg ops docker st shed now
  let t := check_thermal_shedding cfg ops h.2.1 shed hw
  let b := check_battery_shedding cfg ops t.docker t.shed hw
  ⟨h.1, b.docker, b.shed, h.2.2, t.stopped ++ b.stopped, t.started ++ b.started⟩

/-- One governor-relevant event of the watchdog's life: a
`restart_container` invocation (with the docker table, oracle, wall-clock
time and target name at that moment) or the hourly
`reset_restart_counts`. -/
inductive WEvent where
  | attempt (docker : DockerState) (ops : Ops) (now : Nat) (container_name : String)
  | reset

/-- Run a sequence of governor events from a state, returning the final
state and the chronological log of issued restarts as (name, time)
pairs. -/
def runEvents (cfg : Config) : List WEvent → WState → WState × List (String × Nat)
  | [], st => (st, [])
  | WEvent.attempt d ops now name :: rest, st =>
      let r := restart_container cfg ops d st now name
      let res := runEvents cfg rest r.st
      (res.1, (if r.ok then [(name, now)] else []) ++ res.2)
  | WEvent.reset :: rest, st =>
      runEvents cfg rest (reset_restart_counts st)

/-- A chronological restart log respects the cooldown when every later
restart of the same service is at least `cd` seconds after each earlier
one. -/
def cooldownRespected (cd : Nat) : List (String × Nat) → Bool
  | [] => true
  | (n, t) :: rest =>
      (rest.all (fun p => !(p.1 == n) || decide (t + cd ≤ p.2))) && cooldownRespected cd rest

/-- Number of issued restarts of service `n` in a log. -/
def countOf (n : String) (log : List (String × Nat)) : Nat :=
  log.countP (fun p => p.1 == n)

/-- True when the event list contains no `reset_restart_counts`. -/
def noReset (es : List WEvent) : Bool :=
  es.all (fun e => match e with | WEvent.reset => false | _ => true)

/-- The default configuration with the two shed-eligibility lists
replaced (the lists are independently configurable environment
variables). -/
def cfgWith (tl bl : List String) : Config :=
  { cfgDefault with thermalShedServices := tl, batteryShedServices := bl }

/-- Run `check_thermal_shedding` on a sequence of temperature readings,
threading the docker table and shed set, and record for each reading the
(stopped, started, shed-after) triple. -/
def thermalSweep (cfg : Config) (ops : Ops) :
    List Int → DockerState → List String → List (List String × List String × List String)
  | [], _, _ => []
  | t :: rest, d, sh =>
    let r := check_thermal_shedding cfg ops d sh ⟨some ⟨some t⟩, none⟩
    (r.stopped, r.started, r.shed) :: thermalSweep cfg ops rest r.docker r.shed

/-- Five unhealthy-tick attempt events on "kiwix" spaced a full cooldown
apart, against the default configuration. -/
def esKiwix : List WEvent :=
  [WEvent.attempt [⟨"kiwix", "running", some "unhealthy", some "always"⟩] opsAll 0 "kiwix",
   WEvent.attempt [⟨"kiwix", "running", some "unhealthy", some "always"⟩] opsAll 300 "kiwix",
   WEvent.attempt [⟨"kiwix", "running", some "unhealthy", some "always"⟩] opsAll 600 "kiwix",
   WEvent.attempt [⟨"kiwix", "running", some "unhealthy", some "always"⟩] opsAll 900 "kiwix",
   WEvent.attempt [⟨"kiwix", "running", some "unhealthy", some "always"⟩] opsAll 1200 "kiwix"]

/-! Helper lemmas about the association-list dictionaries. -/

theorem lookup_aset_self (l : List (String × Nat)) (k : String) (v : Nat) :
    (aset l k v).lookup k = some v := by
  induction l with
  | nil => simp [aset, List.lookup]
  | cons p rest ih =>
    obtain ⟨k1, v1⟩ := p
    by_cases h : k1 = k
    · simp [aset, h, List.lookup]
    · have hb : (k == k1) = false := by
        simp only [beq_eq_false_iff_ne, ne_eq]
        exact fun hh => h hh.symm
      simp [aset, h, List.lookup, hb, ih]

theorem lookup_aset_ne (l : List (String × Nat)) (k k' : String) (v : Nat)
    (h : k' ≠ k) : (aset l k v).lookup k' = l.lookup k' := by
  have hb : (k' == k) = false := by simp only [beq_eq_false_iff_ne, ne_eq]; exact h
  induction l with
  | nil => simp [aset, List.lookup, hb]
  | cons p rest ih =>
    obtain ⟨k1, v1⟩ := p
    by_cases h1 : k1 = k
    · subst h1
      simp [aset, List.lookup, hb]
    · by_cases h2 : k' = k1
      · subst h2
        simp [aset, h1, List.lookup, ih]
      · have hb2 : (k' == k1) = false := by
          simp only [beq_eq_false_iff_ne, ne_eq]; exact h2
        simp [aset, h1, List.lookup, hb2, ih]

/-! Characterisation lemmas for the restart governor. -/

theorem should_restart_cooldown (cfg : Config) (st : WState) (now : Nat) (name : String)
    (h : should_restart cfg st now name = true) (t : Nat)
    (hl : st.last_restart.lookup name = some t) : t + cfg.restartCooldown ≤ now := by
  unfold should_restart at h
  rw [hl] at h
  by_cases hc : now < t + cfg.restartCooldown
  · simp [hc] at h
  · omega

theorem should_restart_attempts (cfg : Config) (st : WState) (now : Nat) (name : String)
    (h : should_restart cfg st now name = true) :
    attemptsOf st name < cfg.maxRestartAttempts := by
  unfold should_restart at h
  cases hl : st.last_restart.lookup name with
  | none =>
    rw [hl] at h
    by_cases ha : attemptsOf st name ≥ cfg.maxRestartAttempts
    · simp [ha] at h
    · omega
  | some t =>
    rw [hl] at h
    by_cases hc : now < t + cfg.restartCooldown
    · simp [hc] at h
    · by_cases ha : attemptsOf st name ≥ cfg.maxRestartAttempts
      · simp [hc, ha] at h
      · omega

/-- Closed-form equation for `restart_container`: the restart is issued
exactly when the governor allows it, the container exists and the docker
restart call succeeds; on success the attempt counter and last-restart
time are updated and the container is running. -/
theorem restart_container_eq (cfg : Config) (ops : Ops) (docker : DockerState)
    (st : WState) (now : Nat) (name : String) :
    restart_container cfg ops docker st now name =
      (if (should_restart cfg st now name && (dockerGet docker name).isSome
            && ops.restartOk name) = true
       then ⟨true,
             ⟨aset st.restart_attempts name (attemptsOf st name + 1),
              aset st.last_restart name now⟩,
             dockerSetStatus docker name "running"⟩
       else ⟨false, st, docker⟩) := by
  unfold restart_container
  cases hs : should_restart cfg st now name <;>
    cases hg : dockerGet docker name <;>
      cases ho : ops.restartOk name <;> simp [hs, hg, ho]

theorem restart_container_ok_st (cfg : Config) (ops : Ops) (docker : DockerState)
    (st : WState) (now : Nat) (name : String)
    (h : (restart_container cfg ops docker st now name).ok = true) :
    should_restart cfg st now name = true ∧
    (restart_container cfg ops docker st now name).st =
      ⟨aset st.restart_attempts name (attemptsOf st name + 1),
       aset st.last_restart name now⟩ := by
  rw [restart_container_eq] at h ⊢
  split at h
  case isTrue hc =>
    simp only [Bool.and_eq_true] at hc
    rw [if_pos (by simp [hc.1.1, hc.1.2, hc.2])]
    exact ⟨hc.1.1, rfl⟩
  case isFalse hc => simp at h

theorem restart_container_not_ok_st (cfg : Config) (ops : Ops) (docker : DockerState)
    (st : WState) (now : Nat) (name : String)
    (h : (restart_container cfg ops docker st now name).ok = false) :
    (restart_container cfg ops docker st now name).st = st := by
  rw [restart_container_eq] at h ⊢
  split at h
  case isTrue hc => simp at h
  case isFalse hc => rw [if_neg hc]

/-- Every restart of service `n` issued after a point where
`last_restart[n] = t` happens at least one full cooldown after `t`. -/
theorem issued_after_cooldown (cfg : Config) (es : List WEvent) (st : WState)
    (n : String) (t : Nat) (hlk : st.last_restart.lookup n = some t) :
    ∀ u, (n, u) ∈ (runEvents cfg es st).2 → t + cfg.restartCooldown ≤ u := by
  induction es generalizing st t with
  | nil => simp [runEvents]
  | cons e rest ih =>
    cases e with
    | reset =>
      intro u hu
      exact ih (reset_restart_counts st) t hlk u hu
    | attempt d ops now name =>
      intro u hu
      cases hok : (restart_container cfg ops d st now name).ok with
      | false =>
        have hst := restart_container_not_ok_st cfg ops d st now name hok
        have hu' : (n, u) ∈ (runEvents cfg rest st).2 := by
          simp only [runEvents, hok] at hu
          simpa [hst] using hu
        exact ih st t hlk u hu'
      | true =>
        obtain ⟨hsr, hst⟩ := restart_container_ok_st cfg ops d st now name hok
        have hu' : (n, u) = (name, now) ∨
            (n, u) ∈ (runEvents cfg rest (restart_container cfg ops d st now name).st).2 := by
          simp only [runEvents, hok] at hu
          simpa using hu
        cases hu' with
        | inl heq =>
          have hn : n = name := congrArg Prod.fst heq
          have hunow : u = now := congrArg Prod.snd heq
          subst hn
          have := should_restart_cooldown cfg st now n hsr t hlk
          omega
        | inr hmem =>
          by_cases hn : name = n
          · subst hn
            have hlk2 : (restart_container cfg ops d st now name).st.last_restart.lookup name
                = some now := by
              rw [hst]; exact lookup_aset_self _ _ _
            have hc := should_restart_cooldown cfg st now name hsr t hlk
            have := ih (restart_container cfg ops d st now name).st now hlk2 u hmem
            omega
          · have hlk2 : (restart_container cfg ops d st now name).st.last_restart.lookup n
                = some t := by
              rw [hst]
              rw [lookup_aset_ne st.last_restart name n now (fun hh => hn hh.symm)]
              exact hlk
            exact ih (restart_container cfg ops d st now name).st t hlk2 u hmem

/-- C3 core: any run of governor events from any initial state produces a
chronological restart log that respects the cooldown. -/
theorem runEvents_cooldownRespected (cfg : Config) (es : List WEvent) (st : WState) :
    cooldownRespected cfg.restartCooldown (runEvents cfg es st).2 = true := by
  induction es generalizing st with
  | nil => simp [runEvents, cooldownRespected]
  | cons e rest ih =>
    cases e with
    | reset => exact ih (reset_restart_counts st)
    | attempt d ops now name =>
      cases hok : (restart_container cfg ops d st now name).ok with
      | false =>
        have hrw : (runEvents cfg (WEvent.attempt d ops now name :: rest) st).2
            = (runEvents cfg rest (restart_container cfg ops d st now name).st).2 := by
          simp [runEvents, hok]
        rw [hrw]
        exact ih _
      | true =>
        have hrw : (runEvents cfg (WEvent.attempt d ops now name :: rest) st).2
            = (name, now)
              :: (runEvents cfg rest (restart_container cfg ops d st now name).st).2 := by
          simp [runEvents, hok]
        rw [hrw]
        simp only [cooldownRespected]
        rw [Bool.and_eq_true]
        constructor
        · rw [List.all_eq_true]
          intro p hp
          obtain ⟨a, b⟩ := p
          obtain ⟨hsr, hst⟩ := restart_container_ok_st cfg ops d st now name hok
          by_cases hn : a = name
          · subst hn
            have hlk2 : (restart_container cfg ops d st now a).st.last_restart.lookup a
                = some now := by
              rw [hst]; exact lookup_aset_self _ _ _
            have := issued_after_cooldown cfg rest _ a now hlk2 b hp
            simp [this]
          · have : (a == name) = false := by
              simp only [beq_eq_false_iff_ne, ne_eq]; exact hn
            simp [this]
        · exact ih _

theorem attemptsOf_reset (st : WState) (n : String) :
    attemptsOf (reset_restart_counts st) n = 0 := by
  simp [reset_restart_counts, attemptsOf, List.lookup]

theorem attemptsOf_restart_self (cfg : Config) (ops : Ops) (d : DockerState) (st : WState)
    (now : Nat) (name : String)
    (hok : (restart_container cfg ops d st now name).ok = true) :
    attemptsOf (restart_container cfg ops d st now name).st name = attemptsOf st name + 1 := by
  obtain ⟨_, hst⟩ := restart_container_ok_st cfg ops d st now name hok
  rw [hst]
  simp only [attemptsOf]
  rw [lookup_aset_self]
  rfl

theorem attemptsOf_restart_other (cfg : Config) (ops : Ops) (d : DockerState) (st : WState)
    (now : Nat) (name n : String) (hne : n ≠ name)
    (hok : (restart_container cfg ops d st now name).ok = true) :
    attemptsOf (restart_container cfg ops d st now name).st n = attemptsOf st n := by
  obtain ⟨_, hst⟩ := restart_container_ok_st cfg ops d st now name hok
  rw [hst]
  simp only [attemptsOf]
  rw [lookup_aset_ne _ _ _ _ hne]

/-- An attempt counter that is within the budget stays within the budget
over any run of governor events. -/
theorem attempts_runEvents_bound (cfg : Config) (es : List WEvent) (st : WState) (n : String)
    (h : attemptsOf st n ≤ cfg.maxRestartAttempts) :
    attemptsOf (runEvents cfg es st).1 n ≤ cfg.maxRestartAttempts := by
  induction es generalizing st with
  | nil => simpa [runEvents]
  | cons e rest ih =>
    cases e with
    | reset =>
      have h0 := attemptsOf_reset st n
      exact ih (reset_restart_counts st) (by omega)
    | attempt d ops now name =>
      have hrw : (runEvents cfg (WEvent.attempt d ops now name :: rest) st).1
          = (runEvents cfg rest (restart_container cfg ops d st now name).st).1 := by
        simp [runEvents]
      rw [hrw]
      cases hok : (restart_container cfg ops d st now name).ok with
      | false =>
        rw [restart_container_not_ok_st cfg ops d st now name hok]
        exact ih st h
      | true =>
        apply ih
        by_cases hn : n = name
        · subst hn
          rw [attemptsOf_restart_self cfg ops d st now n hok]
          obtain ⟨hsr, _⟩ := restart_container_ok_st cfg ops d st now n hok
          have := should_restart_attempts cfg st now n hsr
          omega
        · rw [attemptsOf_restart_other cfg ops d st now name n hn hok]
          exact h

/-- On a reset-free run the final attempt counter of a service equals
its initial counter plus the number of restarts issued for it. -/
theorem attempts_eq_count (cfg : Config) (es : List WEvent) (st : WState) (n : String)
    (hn : noReset es = true) :
    attemptsOf (runEvents cfg es st).1 n
      = attemptsOf st n + countOf n (runEvents cfg es st).2 := by
  induction es generalizing st with
  | nil => simp [runEvents, countOf]
  | cons e rest ih =>
    cases e with
    | reset => simp [noReset] at hn
    | attempt d ops now name =>
      have hn' : noReset rest = true := by
        simp only [noReset, List.all_cons, Bool.and_eq_true] at hn
        exact hn.2
      cases hok : (restart_container cfg ops d st now name).ok with
      | false =>
        have hrw1 : (runEvents cfg (WEvent.attempt d ops now name :: rest) st).1
            = (runEvents cfg rest (restart_container cfg ops d st now name).st).1 := by
          simp [runEvents]
        have hrw2 : (runEvents cfg (WEvent.attempt d ops now name :: rest) st).2
            = (runEvents cfg rest (restart_container cfg ops d st now name).st).2 := by
          simp [runEvents, hok]
        rw [hrw1, hrw2, restart_container_not_ok_st cfg ops d st now name hok]
        exact ih st hn'
      | true =>
        have hrw1 : (runEvents cfg (WEvent.attempt d ops now name :: rest) st).1
            = (runEvents cfg rest (restart_container cfg ops d st now name).st).1 := by
          simp [runEvents]
        have hrw2 : (runEvents cfg (WEvent.attempt d ops now name :: rest) st).2
            = (name, now)
              :: (runEvents cfg rest (restart_container cfg ops d st now name).st).2 := by
          simp [runEvents, hok]
        rw [hrw1, hrw2]
        have hcount : countOf n ((name, now)
              :: (runEvents cfg rest (restart_container cfg ops d st now name).st).2)
            = countOf n (runEvents cfg rest (restart_container cfg ops d st now name).st).2
              + (if (name == n) = true then 1 else 0) := by
          simp [countOf, List.countP_cons]
        rw [hcount, ih _ hn']
        by_cases hne : n = name
        · subst hne
          rw [attemptsOf_restart_self cfg ops d st now n hok]
          simp
          omega
        · rw [attemptsOf_restart_other cfg ops d st now name n hne hok]
          have : (name == n) = false := by
            simp only [beq_eq_false_iff_ne, ne_eq]
            exact fun hh => hne hh.symm
          simp [this]

/-- One health-loop iteration preserves the property that no name in the
issued-restart list is a shed member. -/
theorem healthRestartStep_preserves (cfg : Config) (ops : Ops) (shed : List String)
    (now : Nat) (name : String) (acc : WState × DockerState × List String)
    (hacc : acc.2.2.all (fun a => !shed.contains a) = true)
    (hname : shed.contains name = false) :
    ((healthRestartStep cfg ops now name acc).2.2).all (fun a => !shed.contains a) = true := by
  unfold healthRestartStep
  dsimp only
  cases hok : (restart_container cfg ops acc.2.1 acc.1 now name).ok with
  | false => simpa [hok] using hacc
  | true =>
    rw [if_pos rfl, List.all_append]
    simp only [List.all_cons, List.all_nil, Bool.and_true, hacc, hname, Bool.not_false,
      Bool.and_self]

theorem healthStep_preserves (cfg : Config) (ops : Ops) (shed : List String) (now : Nat)
    (acc : WState × DockerState × List String) (c : ContainerInfo)
    (hacc : acc.2.2.all (fun a => !shed.contains a) = true) :
    ((healthStep cfg ops shed now acc c).2.2).all (fun a => !shed.contains a) = true := by
  unfold healthStep
  cases hc : shed.contains c.name with
  | true => simpa [hc] using hacc
  | false =>
    simp only [hc, Bool.false_eq_true, if_false]
    split
    · exact hacc
    · have hacc1 : ((if c.health == some "unhealthy"
          then healthRestartStep cfg ops now c.name acc
          else acc).2.2).all (fun a => !shed.contains a) = true := by
        split
        · exact healthRestartStep_preserves cfg ops shed now c.name acc hacc hc
        · exact hacc
      split
      · exact healthRestartStep_preserves cfg ops shed now c.name _ hacc1 hc
      · exact hacc1

/-- The health check never issues a restart for a shed member. -/
theorem check_container_health_skips_shed (cfg : Config) (ops : Ops) (docker : DockerState)
    (st : WState) (shed : List String) (now : Nat) :
    ((check_container_health cfg ops docker st shed now).2.2).all
      (fun a => !shed.contains a) = true := by
  unfold check_container_health
  have main : ∀ (l : List ContainerInfo) (acc : WState × DockerState × List String),
      acc.2.2.all (fun a => !shed.contains a) = true →
      ((l.foldl (healthStep cfg ops shed now) acc).2.2).all (fun a => !shed.contains a)
        = true := by
    intro l
    induction l with
    | nil => intro acc hacc; simpa using hacc
    | cons c rest ih =>
      intro acc hacc
      exact ih _ (healthStep_preserves cfg ops shed now acc c hacc)
  exact main docker (st, docker, []) (by simp)

/-! The claim theorems. -/

/-- C1: the claim says a service eligible under both the thermal and the
battery shedding category and currently in the shed set is started only
when neither trigger is active. The code violates this: the battery
recovery branch starts every shed battery-eligible service without
consulting the thermal trigger. At the failing input below the CPU
temperature is 85 (thermal trigger active, threshold 80), the battery is
at 50 percent and not charging, and the dual-eligible shed service
"ollama" is nevertheless started and removed from the shed set within
the very tick whose reading shows the thermal trigger active. -/
theorem battery_recovery_ignores_thermal_trigger :
    (let hw : HwStatus := ⟨some ⟨some 85⟩, some ⟨some 50, some false⟩⟩
     let t := tick cfgDefault opsAll [⟨"ollama", "exited", none, some "always"⟩]
        ⟨[], []⟩ ["ollama"] 0 hw
     cpuTempOf hw ≥ cfgDefault.thermalShedTemp ∧
     container_matches "ollama" cfgDefault.thermalShedServices = true ∧
     container_matches "ollama" cfgDefault.batteryShedServices = true ∧
     t.started = ["ollama"] ∧ t.shed = []) := by
  decide

/-- C2: the claim says a stress reading with no temperature data and no
battery data produces zero shedding and unshedding actions. The code
violates this: `temp.get("cpu_temp_c", 0)` turns a missing reading into
0 degrees, which satisfies the recovery condition `0 < 80 - 5`, so the
thermal check starts every shed service that is thermal-eligible and
not battery-eligible. At the failing input below the configuration sheds
"jellyfin" thermally (battery list at its default), the reading is the
empty dict, and the shed service "jellyfin" is started and removed from
the shed set. -/
theorem missing_data_unsheds_service :
    (let t := tick (cfgWith ["jellyfin"] cfgDefault.batteryShedServices) opsAll
        [⟨"jellyfin", "exited", none, some "always"⟩] ⟨[], []⟩ ["jellyfin"] 0 ⟨none, none⟩
     t.started = ["jellyfin"] ∧ t.shed = []) := by
  decide

/-- C3: if a restart was issued for a service at time T, no further
restart for that service is issued at any later point strictly before
T plus the cooldown, whatever the interleaving of restart attempts
(healthy or not) and hourly resets: every run of governor events
produces a chronological restart log in which any later restart of the
same service is at least one full cooldown after each earlier one. -/
theorem restart_cooldown_monotonic (cfg : Config) (es : List WEvent) (st : WState) :
    cooldownRespected cfg.restartCooldown (runEvents cfg es st).2 = true :=
  runEvents_cooldownRespected cfg es st

/-- C4: once the number of restarts issued for a service reaches the
maximum attempt budget, no further restart is issued for it until the
hourly reset clears the counters: on any reset-free run of governor
events starting with a zero attempt counter, at most `maxRestartAttempts`
restarts are issued for the service, however many attempts occur. -/
theorem restart_attempts_bounded (cfg : Config) (es : List WEvent) (st : WState)
    (n : String) (hn : noReset es = true) (h0 : attemptsOf st n = 0) :
    countOf n (runEvents cfg es st).2 ≤ cfg.maxRestartAttempts := by
  have h1 := attempts_eq_count cfg es st n hn
  have h2 := attempts_runEvents_bound cfg es st n (by omega)
  omega

/-- Witness for C4 at a concrete input: five well-spaced unhealthy-tick
attempts on "kiwix" issue at most the budget of three restarts. -/
theorem restart_attempts_bounded_witness :
    noReset esKiwix = true ∧ attemptsOf ⟨[], []⟩ "kiwix" = 0 ∧
    countOf "kiwix" (runEvents cfgDefault esKiwix ⟨[], []⟩).2
      ≤ cfgDefault.maxRestartAttempts :=
  ⟨by decide, by decide,
   restart_attempts_bounded cfgDefault esKiwix ⟨[], []⟩ "kiwix" (by decide) (by decide)⟩

/-- C5 counterexample: under the default configuration "ollama" is both
thermal- and battery-eligible; after a reading of 81 sheds it, readings
of 78 and 76 leave it shed, but a reading of 74 does NOT start it even
though the battery trigger is not active (battery at 18 percent, not
charging): the thermal recovery guard tests battery *eligibility*, not
the battery trigger, so the dual-eligible service stays shed. -/
theorem thermal_hysteresis_cex :
    (let hw := fun (t : Int) => (⟨some ⟨some t⟩, some ⟨some 18, some false⟩⟩ : HwStatus)
     let d0 : DockerState := [⟨"ollama", "running", none, some "always"⟩]
     let t1 := tick cfgDefault opsAll d0 ⟨[], []⟩ [] 0 (hw 81)
     let t2 := tick cfgDefault opsAll t1.docker t1.st t1.shed 30 (hw 78)
     let t3 := tick cfgDefault opsAll t2.docker t2.st t2.shed 60 (hw 76)
     let t4 := tick cfgDefault opsAll t3.docker t3.st t3.shed 90 (hw 74)
     container_matches "ollama" cfgDefault.thermalShedServices = true ∧
     ¬((18 : Int) ≤ cfgDefault.batteryShedPercent) ∧
     t1.stopped = ["ollama"] ∧ t1.shed = ["ollama"] ∧
     t2.stopped = [] ∧ t2.started = [] ∧ t2.shed = ["ollama"] ∧
     t3.stopped = [] ∧ t3.started = [] ∧ t3.shed = ["ollama"] ∧
     t4.started = [] ∧ t4.shed = ["ollama"]) := by
  decide

/-- C5 amended: with the thermal threshold at its default 80 and the
fixed 5 degree margin, for every thermal-eligible running service that
is not also battery-shed-eligible: a reading of 81 stops it and adds it
to the shed set; readings of 78 and 76 neither stop nor start it; a
reading of 74 starts it again and removes it from the shed set. (For a
service that is also battery-eligible the thermal recovery path never
starts it, whatever the battery state.) -/
theorem thermal_hysteresis_amended (name : String) (tl bl : List String)
    (h : Option String) (rp : Option String)
    (hT : container_matches name tl = true)
    (hB : container_matches name bl = false) :
    thermalSweep (cfgWith tl bl) opsAll [81, 78, 76, 74]
        [⟨name, "running", h, rp⟩] []
      = [([name], [], [name]), ([], [], [name]), ([], [], [name]), ([], [name], [])] := by
  simp [thermalSweep, check_thermal_shedding, cpuTempOf, cfgWith, cfgDefault,
    stop_container, start_container, dockerGet, dockerSetStatus, shedAdd, shedDiscard,
    opsAll, List.find?, hT, hB]

/-- Witness for the amended C5 at a concrete input: "jellyfin" is
thermal-eligible and not battery-eligible and goes through the full
shed / hold / hold / unshed cycle. -/
theorem thermal_hysteresis_amended_witness :
    container_matches "jellyfin" ["jellyfin"] = true ∧
    container_matches "jellyfin" ["openwebui"] = false ∧
    thermalSweep (cfgWith ["jellyfin"] ["openwebui"]) opsAll [81, 78, 76, 74]
        [⟨"jellyfin", "running", none, some "always"⟩] []
      = [(["jellyfin"], [], ["jellyfin"]), ([], [], ["jellyfin"]), ([], [], ["jellyfin"]),
         ([], ["jellyfin"], [])] :=
  ⟨by decide, by decide,
   thermal_hysteresis_amended "jellyfin" ["jellyfin"] ["openwebui"] none (some "always")
     (by decide) (by decide)⟩

/-- C6: the claim says the battery check sheds exactly when
`batteryPercent ≤ batteryThreshold AND NOT charging` for any integer
percent 0-100. The code violates this at percent = 0: the guard
`not battery.get("percent")` treats the falsy value 0 as missing data
and returns without shedding, against the code's own stated intent of
skipping only when no battery info is available. At the failing input
below, 0 percent and not charging leaves the eligible running "ollama"
untouched, while the same reading with 1 percent sheds it. -/
theorem battery_zero_percent_not_shed :
    (let d0 : DockerState := [⟨"ollama", "running", none, some "always"⟩]
     let r0 := check_battery_shedding cfgDefault opsAll d0 [] ⟨none, some ⟨some 0, some false⟩⟩
     let r1 := check_battery_shedding cfgDefault opsAll d0 [] ⟨none, some ⟨some 1, some false⟩⟩
     (0 : Int) ≤ cfgDefault.batteryShedPercent ∧
     container_matches "ollama" cfgDefault.batteryShedServices = true ∧
     r0.stopped = [] ∧ r0.shed = [] ∧ r0.docker = d0 ∧
     r1.stopped = ["ollama"] ∧ r1.shed = ["ollama"]) := by
  decide

/-- C7: shed-set membership changes only together with a successful
runtime action: `stop_container` adds the name exactly when the stop
succeeded (the container exists, is running and the docker stop call
does not raise) and otherwise leaves the shed set unchanged, and
`start_container` removes the name exactly when the start succeeded (the
container exists, is not running and the docker start call does not
raise) and otherwise leaves the shed set unchanged. -/
theorem shed_set_transactional (ops : Ops) (docker : DockerState) (shed : List String)
    (name : String) :
    ((stop_container ops docker shed name).shed
        = if (stop_container ops docker shed name).ok then shedAdd shed name else shed)
    ∧ ((stop_container ops docker shed name).ok
        = match dockerGet docker name with
          | some c => c.status == "running" && ops.stopOk name
          | none => false)
    ∧ ((start_container ops docker shed name).shed
        = if (start_container ops docker shed name).ok then shedDiscard shed name else shed)
    ∧ ((start_container ops docker shed name).ok
        = match dockerGet docker name with
          | some c => !(c.status == "running") && ops.startOk name
          | none => false) := by
  unfold stop_container start_container
  cases hg : dockerGet docker name with
  | none => simp
  | some c =>
    cases hs : c.status == "running" <;>
      cases h1 : ops.stopOk name <;>
        cases h2 : ops.startOk name <;> simp [hs, h1, h2]

/-- C8: the health-based restart evaluation never issues a restart for a
member of the shed set: every name in the issued-restart list of
`check_container_health` is outside the shed set (shed members are
skipped before either the unhealthy check or the stopped-critical
check runs). -/
theorem health_check_never_restarts_shed (cfg : Config) (ops : Ops) (docker : DockerState)
    (st : WState) (shed : List String) (now : Nat) :
    ((check_container_health cfg ops docker st shed now).2.2).all
      (fun a => !shed.contains a) = true :=
  check_container_health_skips_shed cfg ops docker st shed now

/-- C9 counterexample: the claim says that after the reset every
service's last-restart timestamp is absent. It is not:
`reset_restart_counts` rebinds only `restart_attempts`, so a recorded
last-restart time of 5 for "kiwix" survives the reset. -/
theorem reset_keeps_last_restart_cex :
    ¬((reset_restart_counts ⟨[("kiwix", 2)], [("kiwix", 5)]⟩).last_restart.lookup "kiwix"
        = none) ∧
    (reset_restart_counts ⟨[("kiwix", 2)], [("kiwix", 5)]⟩).last_restart.lookup "kiwix"
      = some 5 := by
  decide

/-- C9 amended: the hourly reset clears every service's attempt counter
to zero but does not touch the last-restart timestamps, and the only
other mutation of the attempt counters — a `restart_container`
invocation — never decreases a counter (so counters are cleared by the
reset and at no other time). -/
theorem reset_clears_attempts_only (st : WState) (n : String) (cfg : Config) (ops : Ops)
    (docker : DockerState) (now : Nat) (m : String) :
    attemptsOf (reset_restart_counts st) n = 0 ∧
    (reset_restart_counts st).last_restart = st.last_restart ∧
    attemptsOf st m ≤ attemptsOf (restart_container cfg ops docker st now m).st m := by
  refine ⟨attemptsOf_reset st n, rfl, ?_⟩
  cases hok : (restart_container cfg ops docker st now m).ok with
  | false =>
    rw [restart_container_not_ok_st cfg ops docker st now m hok]
  | true =>
    rw [attemptsOf_restart_self cfg ops docker st now m hok]
    omega

/-- C10: the claim says running the tick body twice with unchanged
inputs issues no additional restart, stop or start actions. The code
violates this: with the CPU at 85 (thermal trigger active) and the
battery at 50 percent, the first tick stops the dual-eligible running
"ollama" and the battery recovery branch immediately starts it again,
returning the docker table, shed set and governor state to exactly their
initial values; the second tick, on unchanged inputs, then issues the
same stop and start again — steady state is an oscillation, not a
no-op. -/
theorem tick_twice_repeats_actions :
    (let hw : HwStatus := ⟨some ⟨some 85⟩, some ⟨some 50, some false⟩⟩
     let d0 : DockerState := [⟨"ollama", "running", none, some "always"⟩]
     let u1 := tick cfgDefault opsAll d0 ⟨[], []⟩ [] 0 hw
     let u2 := tick cfgDefault opsAll u1.docker u1.st u1.shed 30 hw
     u1.docker = d0 ∧ u1.shed = ([] : List String) ∧ u1.st = ⟨[], []⟩ ∧
     u1.stopped = ["ollama"] ∧ u1.started = ["ollama"] ∧
     u2.stopped = ["ollama"] ∧ u2.started = ["ollama"]) := by
  decide

end Mulecube
